import Mathlib

/-!
Verification of the voeparse VOEvent toolkit (src/voeparse/voeparse.py).

The Python module manipulates lxml/objectify element trees.  We embed the
tree data model shallowly: an `Element` carries its tag string, its
attribute dictionary, its namespace map, its text content, an `annotated`
flag (standing for the lxml.objectify type-annotation attributes that
`objectify.deannotate` removes), and its child elements.

Python exceptions are embedded as the `PyErr` type, and every operation of
the module that can observably mutate the tree it is handed is embedded in
explicit state-passing style: it returns the post-call state of the tree
together with either its result or the exception it raises.
-/

/-- Python exceptions that the voeparse code paths can raise. -/
inductive PyErr : Type where
  /-- Python `KeyError` (dict subscript on a missing key, e.g. `nsmap['voe']`). -/
  | keyError : PyErr
  /-- Python `AttributeError` (objectify child lookup on a missing child). -/
  | attributeError : PyErr
  /-- Python `AssertionError` (a failed `assert` statement). -/
  | assertionError : PyErr
  /-- Python `ValueError` with its message. -/
  | valueError (msg : String) : PyErr
  /-- `lxml.etree.DocumentInvalid` carrying the validator's diagnostic reason. -/
  | documentInvalid (reason : String) : PyErr
deriving DecidableEq

/-- An lxml/objectify element tree: tag, attribute dictionary, namespace map,
text content, objectify type-annotation state, and children. -/
inductive Element : Type where
  | mk (tag : String) (attrib : List (String × String))
       (nsmap : List (String × String)) (text : String)
       (annotated : Bool) (children : List Element)

/-- The element's tag (for a namespaced element, `"{uri}LocalName"`). -/
def Element.tag : Element → String
  | .mk t _ _ _ _ _ => t

/-- The element's attribute dictionary, as an association list. -/
def Element.attrib : Element → List (String × String)
  | .mk _ a _ _ _ _ => a

/-- The element's namespace map (`nsmap` in lxml): declared prefixes to URIs. -/
def Element.nsmap : Element → List (String × String)
  | .mk _ _ n _ _ _ => n

/-- The element's text content (objectify leaf values compare via this). -/
def Element.text : Element → String
  | .mk _ _ _ x _ _ => x

/-- Whether the tree still carries objectify type annotations. -/
def Element.annotated : Element → Bool
  | .mk _ _ _ _ b _ => b

/-- The element's child elements, in document order. -/
def Element.children : Element → List Element
  | .mk _ _ _ _ _ c => c

/-- The element with its tag replaced (embeds the Python statement `v.tag = ...`). -/
def Element.withTag : Element → String → Element
  | .mk _ a n x b c, t => .mk t a n x b c

/-- The element with its annotation state replaced. -/
def Element.withAnnotated : Element → Bool → Element
  | .mk t a n x _ c, b => .mk t a n x b c

/-- The element with its attribute dictionary replaced. -/
def Element.withAttrib : Element → List (String × String) → Element
  | .mk t _ n x b c, a => .mk t a n x b c

@[simp] theorem Element.tag_withTag (v : Element) (t : String) : (v.withTag t).tag = t := by
  cases v; rfl

@[simp] theorem Element.attrib_withTag (v : Element) (t : String) : (v.withTag t).attrib = v.attrib := by
  cases v; rfl

@[simp] theorem Element.nsmap_withTag (v : Element) (t : String) : (v.withTag t).nsmap = v.nsmap := by
  cases v; rfl

@[simp] theorem Element.text_withTag (v : Element) (t : String) : (v.withTag t).text = v.text := by
  cases v; rfl

@[simp] theorem Element.annotated_withTag (v : Element) (t : String) : (v.withTag t).annotated = v.annotated := by
  cases v; rfl

@[simp] theorem Element.children_withTag (v : Element) (t : String) : (v.withTag t).children = v.children := by
  cases v; rfl

@[simp] theorem Element.tag_withAnnotated (v : Element) (b : Bool) : (v.withAnnotated b).tag = v.tag := by
  cases v; rfl

@[simp] theorem Element.attrib_withAnnotated (v : Element) (b : Bool) : (v.withAnnotated b).attrib = v.attrib := by
  cases v; rfl

@[simp] theorem Element.nsmap_withAnnotated (v : Element) (b : Bool) : (v.withAnnotated b).nsmap = v.nsmap := by
  cases v; rfl

@[simp] theorem Element.annotated_withAnnotated (v : Element) (b : Bool) : (v.withAnnotated b).annotated = b := by
  cases v; rfl

@[simp] theorem Element.children_withAnnotated (v : Element) (b : Bool) : (v.withAnnotated b).children = v.children := by
  cases v; rfl

@[simp] theorem Element.tag_withAttrib (v : Element) (a : List (String × String)) : (v.withAttrib a).tag = v.tag := by
  cases v; rfl

@[simp] theorem Element.attrib_withAttrib (v : Element) (a : List (String × String)) : (v.withAttrib a).attrib = a := by
  cases v; rfl

@[simp] theorem Element.nsmap_withAttrib (v : Element) (a : List (String × String)) : (v.withAttrib a).nsmap = v.nsmap := by
  cases v; rfl

@[simp] theorem Element.annotated_withAttrib (v : Element) (a : List (String × String)) : (v.withAttrib a).annotated = v.annotated := by
  cases v; rfl

@[simp] theorem Element.withTag_withTag (v : Element) (t t' : String) :
    (v.withTag t).withTag t' = v.withTag t' := by
  cases v; rfl

@[simp] theorem Element.withTag_tag (v : Element) : v.withTag v.tag = v := by
  cases v; rfl

@[simp] theorem Element.withAnnotated_annotated (v : Element) : v.withAnnotated v.annotated = v := by
  cases v; rfl

theorem Element.withTag_withAnnotated (v : Element) (t : String) (b : Bool) :
    (v.withAnnotated b).withTag t = (v.withTag t).withAnnotated b := by
  cases v; rfl

/-- First-match association-list lookup (embeds Python dict subscripting for
the string-keyed dicts `nsmap` and `attrib`). -/
def lookupStr : List (String × String) → String → Option String
  | [], _ => none
  | p :: rest, k => if p.1 = k then some p.2 else lookupStr rest k

/-- Association-list update (embeds Python `d[k] = val`). -/
def setKey : List (String × String) → String → String → List (String × String)
  | [], k, val => [(k, val)]
  | p :: rest, k, val => if p.1 = k then (k, val) :: rest else p :: setKey rest k val

@[simp] theorem lookupStr_setKey_same (l : List (String × String)) (k val : String) :
    lookupStr (setKey l k val) k = some val := by
  induction l with
  | nil => simp [setKey, lookupStr]
  | cons p rest ih =>
    by_cases h : p.1 = k
    · simp [setKey, lookupStr, h]
    · simp [setKey, lookupStr, h, ih]

theorem lookupStr_setKey_ne (l : List (String × String)) (k k' val : String)
    (h : k' ≠ k) : lookupStr (setKey l k val) k' = lookupStr l k' := by
  induction l with
  | nil =>
    simp only [setKey, lookupStr]
    rw [if_neg (fun hh => h hh.symm)]
  | cons p rest ih =>
    by_cases hp : p.1 = k
    · simp only [setKey, hp, if_true, lookupStr]
      rw [if_neg (fun hh => h hh.symm), if_neg (fun hh => h hh.symm)]
    · simp only [setKey, hp, if_false, lookupStr]
      by_cases hq : p.1 = k'
      · simp [hq]
      · simp [hq, ih]

/-- Sets an attribute on an element (embeds `v.attrib[k] = val`). -/
def setAttrib (v : Element) (k val : String) : Element :=
  v.withAttrib (setKey v.attrib k val)

@[simp] theorem nsmap_setAttrib (v : Element) (k val : String) :
    (setAttrib v k val).nsmap = v.nsmap := by
  simp [setAttrib]

@[simp] theorem tag_setAttrib (v : Element) (k val : String) :
    (setAttrib v k val).tag = v.tag := by
  simp [setAttrib]

@[simp] theorem attrib_setAttrib (v : Element) (k val : String) :
    (setAttrib v k val).attrib = setKey v.attrib k val := by
  simp [setAttrib]

/-- `needlePre n s` holds when `n` is a leading segment of `s`
(character-by-character comparison, as Python substring search does at
one candidate position). -/
def needlePre : List Char → List Char → Bool
  | [], _ => true
  | _ :: _, [] => false
  | a :: as, b :: bs => a == b && needlePre as bs

@[simp] theorem needlePre_self_append (n s : List Char) : needlePre n (n ++ s) = true := by
  induction n with
  | nil => rfl
  | cons a as ih => simp [needlePre, ih]

theorem needlePre_head_ne (hd c : Char) (tl cs : List Char) (h : hd ≠ c) :
    needlePre (hd :: tl) (c :: cs) = false := by
  simp [needlePre, h]

/-- Fuelled worker for Python `str.replace`: scans left to right, replacing
every non-overlapping occurrence of `needle` by `repl`.  The fuel is an upper
bound on the number of characters still to scan; callers supply the length of
the string, which is always sufficient. -/
def strReplaceAux (needle repl : List Char) : Nat → List Char → List Char
  | _, [] => []
  | 0, s => s
  | Nat.succ fuel, c :: cs =>
    if needlePre needle (c :: cs) && !needle.isEmpty then
      repl ++ strReplaceAux needle repl fuel (List.drop needle.length (c :: cs))
    else
      c :: strReplaceAux needle repl fuel cs

@[simp] theorem strReplaceAux_nil (needle repl : List Char) (fuel : Nat) :
    strReplaceAux needle repl fuel [] = [] := by
  cases fuel <;> rfl

theorem strReplaceAux_head_match (needle repl s : List Char) (fuel : Nat)
    (h : needle ≠ []) :
    strReplaceAux needle repl (fuel + 1) (needle ++ s) =
      repl ++ strReplaceAux needle repl fuel s := by
  match needle, h with
  | hd :: tl, _ =>
    show strReplaceAux (hd :: tl) repl (fuel + 1) (hd :: (tl ++ s)) = _
    have hpre : needlePre (hd :: tl) (hd :: (tl ++ s)) = true := by
      have := needlePre_self_append (hd :: tl) s
      simpa using this
    have hdrop : List.drop (hd :: tl).length (hd :: (tl ++ s)) = s := by
      simp [List.length_cons, List.drop_succ_cons, List.drop_left tl s]
    rw [strReplaceAux, hpre]
    simp only [List.isEmpty_cons, Bool.not_false, Bool.true_and, if_true, hdrop]

/-- Python-style `str.replace` on strings (all non-overlapping occurrences,
scanning left to right).  Python's special case for an empty needle is not
reproduced; no caller of the source uses an empty needle. -/
def pyReplace (s old new : String) : String :=
  String.mk (strReplaceAux old.data new.data s.data.length s.data)

theorem strReplaceAux_no_head (hd : Char) (tl repl : List Char) :
    ∀ (fuel : Nat) (s : List Char), hd ∉ s → s.length ≤ fuel →
      strReplaceAux (hd :: tl) repl fuel s = s := by
  intro fuel
  induction fuel with
  | zero =>
    intro s _ hlen
    cases s with
    | nil => rfl
    | cons c cs => simp at hlen
  | succ f ih =>
    intro s hmem hlen
    cases s with
    | nil => rfl
    | cons c cs =>
      have hne : hd ≠ c := fun hh => hmem (hh ▸ List.mem_cons_self c cs)
      rw [strReplaceAux, needlePre_head_ne hd c tl cs hne]
      simp only [Bool.false_and]
      rw [if_neg Bool.false_ne_true]
      have hmem' : hd ∉ cs := fun hh => hmem (List.mem_cons_of_mem c hh)
      have hlen' : cs.length ≤ f := by simp at hlen; omega
      rw [ih cs hmem' hlen']

theorem String.data_mk (l : List Char) : (String.mk l).data = l := rfl

/-- The head shape of the braced namespace pattern `"\x7b" ++ uri ++ "\x7d"`. -/
theorem braced_data (uri : String) :
    ("\x7b" ++ uri ++ "\x7d").data = '{' :: (uri.data ++ ['}']) := by
  simp [String.data_append]

/-- Stripping the braced namespace from a correctly prefixed `VOEvent` root
tag yields the bare local name: this is what the unconditional string replace
of `_remove_root_tag_prefix` computes there. -/
theorem pyReplace_strip_voevent (uri : String) :
    pyReplace ("\x7b" ++ uri ++ "\x7dVOEvent") ("\x7b" ++ uri ++ "\x7d") "" = "VOEvent" := by
  have h1 : ("\x7dVOEvent" : String).data = '}' :: "VOEvent".data := rfl
  have h2 : ("\x7b" : String).data = ['{'] := rfl
  have hdata : ("\x7b" ++ uri ++ "\x7dVOEvent").data
      = ('{' :: (uri.data ++ ['}'])) ++ "VOEvent".data := by
    simp [String.data_append, h1, h2]
  have hVO : ("VOEvent".data).length = 7 := rfl
  have hlen : (("\x7b" ++ uri ++ "\x7dVOEvent").data).length = (uri.data.length + 8) + 1 := by
    rw [hdata]
    simp [hVO]
  unfold pyReplace
  rw [hlen, braced_data, hdata]
  rw [strReplaceAux_head_match ('{' :: (uri.data ++ ['}'])) "".data "VOEvent".data
        (uri.data.length + 8) (by simp)]
  rw [strReplaceAux_no_head '{' (uri.data ++ ['}']) "".data (uri.data.length + 8)
        "VOEvent".data (by decide) (by rw [hVO]; omega)]
  rfl

/-- A tag containing no `'{'` cannot contain the braced namespace pattern, so
the unconditional string replace leaves it unchanged (silently: no error). -/
theorem pyReplace_no_brace (s uri : String) (h : '{' ∉ s.data) :
    pyReplace s ("\x7b" ++ uri ++ "\x7d") "" = s := by
  unfold pyReplace
  rw [braced_data]
  rw [strReplaceAux_no_head '{' (uri.data ++ ['}']) "".data s.data.length s.data h (le_refl _)]

/-- The characters of a tag up to and including the first `'}'`. -/
def braceSpan : List Char → List Char
  | [] => []
  | c :: cs => if c = '}' then ['}'] else c :: braceSpan cs

/-- The `"{uri}"` namespace portion of a tag, empty when the tag is
unprefixed.  lxml.objectify builds a child's lookup tag from the namespace of
its parent's tag, which is why a stripped (bare) root makes bare child-name
access work. -/
def tagNsBrace (tag : String) : String :=
  match tag.data with
  | '{' :: rest => String.mk ('{' :: braceSpan rest)
  | _ => ""

/-- First child with the given tag, in document order. -/
def findChild : List Element → String → Option Element
  | [], _ => none
  | c :: cs, t => if c.tag = t then some c else findChild cs t

/-- objectify attribute-style child access `v.Name`: looks the child up under
the parent's namespace and raises `AttributeError` when absent. -/
def getChild (v : Element) (name : String) : Except PyErr Element :=
  match findChild v.children (tagNsBrace v.tag ++ name) with
  | some c => .ok c
  | none => .error .attributeError

/-- Python `v.attrib[k]`: raises `KeyError` when the attribute is absent. -/
def getAttrib (v : Element) (k : String) : Except PyErr String :=
  match lookupStr v.attrib k with
  | some s => .ok s
  | none => .error .keyError

/-- Modelled from the spec: raw XML byte strings (the values passed to
`loads` and produced by `dumps`).  The XML parser and serializer live in the
external lxml library, outside this repository; following the spec's §6
interface and its round-trip equivalence "ignoring pretty-print whitespace
and declaration formatting differences", a well-formed byte string is
represented by its semantic content, i.e. by the element tree it parses to. -/
abbrev XmlBytes := Element

/-- Modelled from the spec: `lxml.objectify.fromstring` parses bytes into a
tree ("parses `bytes` as XML into a tree").  On the semantic byte model this
is the identity; malformed inputs (the `ParseError` case) are outside the
model. -/
def fromstring (s : XmlBytes) : Element := s

/-- Modelled from the spec: `lxml.etree.tostring` serializes a tree to
UTF-8 bytes with the requested pretty-print/XML-declaration formatting.  On
the semantic byte model the result is the tree itself; the formatting options
do not affect the semantic value (they only produce the whitespace and
declaration differences the spec's equivalence ignores). -/
def tostring (v : Element) (prettyPrint xmlDeclaration : Bool) : XmlBytes := v

/-- The `Coords` namedtuple: `'ra dec ra_err dec_err units system'`.
objectify leaf elements are represented by their text values. -/
structure Coords : Type where
  ra : String
  dec : String
  ra_err : String
  dec_err : String
  units : String
  system : String
deriving DecidableEq

/-- `CoordSystemIDs.fk5` from the source. -/
def CoordSystemIDs.fk5 : String := "UTC-FK5-GEO"

/-- `CoordUnits.degrees` from the source. -/
def CoordUnits.degrees : String := "degrees"

/-- `_remove_root_tag_prefix(v)`: executes
`v.tag = v.tag.replace(''.join(('{', v.nsmap['voe'], '}')), '')`.
The `nsmap['voe']` subscript raises `KeyError` when the prefix is undeclared;
otherwise the replace is unconditional.  Returns the post-call tree state
together with the outcome. -/
def _remove_root_tag_prefix (v : Element) : Element × Except PyErr Unit :=
  match lookupStr v.nsmap "voe" with
  | none => (v, .error .keyError)
  | some uri => (v.withTag (pyReplace v.tag ("\x7b" ++ uri ++ "\x7d") ""), .ok ())

/-- `_reinsert_root_tag_prefix(v)`: executes
`v.tag = ''.join(('{', v.nsmap['voe'], '}VOEvent'))` — note the local name
`VOEvent` is hardcoded.  `KeyError` when `voe` is undeclared. -/
def _reinsert_root_tag_prefix (v : Element) : Element × Except PyErr Unit :=
  match lookupStr v.nsmap "voe" with
  | none => (v, .error .keyError)
  | some uri => (v.withTag ("\x7b" ++ uri ++ "\x7dVOEvent"), .ok ())

/-- `lxml.objectify.deannotate(v)`: removes the objectify type-annotation
attributes, modelled by clearing the `annotated` flag. -/
def deannotate (v : Element) : Element :=
  v.withAnnotated false

/-- `_return_to_standard_xml(v)`: `objectify.deannotate(v)` then
`_reinsert_root_tag_prefix(v)`. -/
def _return_to_standard_xml (v : Element) : Element × Except PyErr Unit :=
  _reinsert_root_tag_prefix (deannotate v)

/-- `loads(s, validate=False)`: `v = objectify.fromstring(s)`;
`_remove_root_tag_prefix(v)`; `return v`.  The `validate` flag is unused in
the source. -/
def loads (s : XmlBytes) (validate : Bool) : Except PyErr Element :=
  match _remove_root_tag_prefix (fromstring s) with
  | (_, .error e) => .error e
  | (v1, .ok _) => .ok v1

/-- `dumps(v, validate=False, pretty_print=True, xml_declaration=True)`:
`_return_to_standard_xml(v)`, serialize with `etree.tostring`, then
`_remove_root_tag_prefix(v)` and return the bytes.  The `validate` flag is a
no-op in the source.  The first component is the caller's tree after the
call. -/
def dumps (v : Element) (validate prettyPrint xmlDeclaration : Bool) :
    Element × Except PyErr XmlBytes :=
  match _return_to_standard_xml v with
  | (v1, .error e) => (v1, .error e)
  | (v1, .ok _) =>
    match _remove_root_tag_prefix v1 with
    | (v2, .error e) => (v2, .error e)
    | (v2, .ok _) => (v2, .ok (tostring v1 prettyPrint xmlDeclaration))

/-- `valid_as_v2_0(v)`: `_return_to_standard_xml(v)`; boolean schema check;
`_remove_root_tag_prefix(v)`; return the boolean.  The schema object
`voevent_v2_0_schema` is built from `definitions.v2_0_schema_str`, a module
of this repository that is not under src/; modelled from the spec as the
explicit parameter `schemaValidate` giving the boolean validation outcome. -/
def valid_as_v2_0 (schemaValidate : Element → Bool) (v : Element) :
    Element × Except PyErr Bool :=
  match _return_to_standard_xml v with
  | (v1, .error e) => (v1, .error e)
  | (v1, .ok _) =>
    match _remove_root_tag_prefix v1 with
    | (v2, .error e) => (v2, .error e)
    | (v2, .ok _) => (v2, .ok (schemaValidate v1))

/-- `assert_valid_as_v2_0(v)`: `_return_to_standard_xml(v)`; throw-on-failure
schema check (`lxml` raises `DocumentInvalid` carrying the diagnostic
reason, and returns `None` on success); `_remove_root_tag_prefix(v)` runs
only on the success path.  The schema engine is modelled from the spec as
the parameter `schemaAssertValid`: `none` for a valid document, or
`some reason` with the validator's diagnostic for an invalid one. -/
def assert_valid_as_v2_0 (schemaAssertValid : Element → Option String) (v : Element) :
    Element × Except PyErr Unit :=
  match _return_to_standard_xml v with
  | (v1, .error e) => (v1, .error e)
  | (v1, .ok _) =>
    match schemaAssertValid v1 with
    | some reason => (v1, .error (.documentInvalid reason))
    | none =>
      match _remove_root_tag_prefix v1 with
      | (v2, .error e) => (v2, .error e)
      | (v2, .ok _) => (v2, .ok ())

/-- `make_voevent(ivorn, role, validate=True)`: parse the skeleton, strip the
root prefix, set `attrib['ivorn'] = ''.join(('ivo://', ivorn))` and
`attrib['role'] = role`, optionally `assert_valid_as_v2_0`, return the tree.
`definitions.v2_0_skeleton_str` is a module of this repository that is not
under src/; modelled from the spec ("a minimal skeleton VOEvent document")
as the explicit parameter `skeleton`. -/
def make_voevent (skeleton : XmlBytes) (schemaAssertValid : Element → Option String)
    (ivorn role : String) (validate : Bool) : Except PyErr Element :=
  match _remove_root_tag_prefix (fromstring skeleton) with
  | (_, .error e) => .error e
  | (v1, .ok _) =>
    if validate then
      match assert_valid_as_v2_0 schemaAssertValid
          (setAttrib (setAttrib v1 "ivorn" ("ivo://" ++ ivorn)) "role" role) with
      | (_, .error e) => .error e
      | (v4, .ok _) => .ok v4
    else .ok (setAttrib (setAttrib v1 "ivorn" ("ivo://" ++ ivorn)) "role" role)

/-- The `try:` block of `pull_astro_coords`:
`assert ac.Position2D.Name1 == 'RA' and ac.Position2D.Name2 == 'Dec'` (the
`and` short-circuits, and a failed `assert` raises `AssertionError`), then
`ra_deg = ac.Position2D.Value2.C1`, `dec_deg = ac.Position2D.Value2.C2`,
`err_deg = ac.Position2D.Error2Radius`.  Each objectify attribute access is a
fresh lookup; a missing child raises `AttributeError`.  objectify leaf
comparison against a Python string compares the element's text. -/
def pullAstroCoordsTry (ac : Element) : Except PyErr (String × String × String) :=
  match getChild ac "Position2D" with
  | .error e => .error e
  | .ok p1 =>
  match getChild p1 "Name1" with
  | .error e => .error e
  | .ok n1 =>
  if n1.text = "RA" then
    match getChild ac "Position2D" with
    | .error e => .error e
    | .ok p2 =>
    match getChild p2 "Name2" with
    | .error e => .error e
    | .ok n2 =>
    if n2.text = "Dec" then
      match getChild ac "Position2D" with
      | .error e => .error e
      | .ok p3 =>
      match getChild p3 "Value2" with
      | .error e => .error e
      | .ok val2a =>
      match getChild val2a "C1" with
      | .error e => .error e
      | .ok c1 =>
      match getChild ac "Position2D" with
      | .error e => .error e
      | .ok p4 =>
      match getChild p4 "Value2" with
      | .error e => .error e
      | .ok val2b =>
      match getChild val2b "C2" with
      | .error e => .error e
      | .ok c2 =>
      match getChild ac "Position2D" with
      | .error e => .error e
      | .ok p5 =>
      match getChild p5 "Error2Radius" with
      | .error e => .error e
      | .ok er => .ok (c1.text, c2.text, er.text)
    else .error .assertionError
  else .error .assertionError

/-- `pull_astro_coords(v)`: navigates
`v.WhereWhen.ObsDataLocation.ObservationLocation` twice (for `AstroCoords`
and for `AstroCoordSystem`), reads `ac_sys.attrib['id']`, then runs the
`try:` block; `except AttributeError:` is converted to
`ValueError("Unrecognised AstroCoords type")`, every other exception
propagates.  On success builds `Coords` with the single error radius used
for both `ra_err` and `dec_err`, `units=CoordUnits.degrees`, and the system
id taken verbatim.  The first component is the caller's tree after the call
(the function only reads). -/
def pull_astro_coords (v : Element) : Element × Except PyErr Coords :=
  match getChild v "WhereWhen" with
  | .error e => (v, .error e)
  | .ok ww =>
  match getChild ww "ObsDataLocation" with
  | .error e => (v, .error e)
  | .ok odl =>
  match getChild odl "ObservationLocation" with
  | .error e => (v, .error e)
  | .ok ol =>
  match getChild ol "AstroCoords" with
  | .error e => (v, .error e)
  | .ok ac =>
  match getChild v "WhereWhen" with
  | .error e => (v, .error e)
  | .ok ww2 =>
  match getChild ww2 "ObsDataLocation" with
  | .error e => (v, .error e)
  | .ok odl2 =>
  match getChild odl2 "ObservationLocation" with
  | .error e => (v, .error e)
  | .ok ol2 =>
  match getChild ol2 "AstroCoordSystem" with
  | .error e => (v, .error e)
  | .ok ac_sys =>
  match getAttrib ac_sys "id" with
  | .error e => (v, .error e)
  | .ok sys =>
  match pullAstroCoordsTry ac with
  | .ok (ra_deg, dec_deg, err_deg) =>
      (v, .ok { ra := ra_deg, dec := dec_deg, ra_err := err_deg, dec_err := err_deg,
                units := CoordUnits.degrees, system := sys })
  | .error .attributeError => (v, .error (.valueError "Unrecognised AstroCoords type"))
  | .error e => (v, .error e)

/-- A leaf element with a tag and text value. -/
def leafEl (tag txt : String) : Element :=
  .mk tag [] [] txt false []

/-- A NASA-GCN-style `Position2D` node with the given axis names, values and
error radius. -/
def gcnPos (n1 n2 c1 c2 er : String) : Element :=
  .mk "Position2D" [] [] "" false
    [leafEl "Name1" n1, leafEl "Name2" n2,
     .mk "Value2" [] [] "" false [leafEl "C1" c1, leafEl "C2" c2],
     leafEl "Error2Radius" er]

/-- A loaded (stripped-root) VOEvent tree with a NASA-GCN-style where/when
subtree: axis names, values, error radius and coordinate system id as
given. -/
def gcnTree (n1 n2 c1 c2 er sysid : String) : Element :=
  .mk "VOEvent" [] [("voe", "ns")] "" false
    [.mk "WhereWhen" [] [] "" false
      [.mk "ObsDataLocation" [] [] "" false
        [.mk "ObservationLocation" [] [] "" false
          [.mk "AstroCoordSystem" [("id", sysid)] [] "" false [],
           .mk "AstroCoords" [] [] "" false [gcnPos n1 n2 c1 c2 er]]]]]

/-- C2: for every loaded tree whose where/when subtree holds an
`AstroCoordSystem` with id attribute `sys` and an `AstroCoords` whose
`Position2D` has `Name1` text `"RA"`, `Name2` text `"Dec"`, values `C1`,
`C2` and an `Error2Radius`, `pull_astro_coords` returns exactly
`Coords(ra=C1, dec=C2, ra_err=err, dec_err=err, units="degrees",
system=sys)` — the single error radius is used for both `ra_err` and
`dec_err` — and does not disturb the tree. -/
theorem pull_astro_coords_gcn_success
    (v ww odl ol ac acs p n1 n2 val2 c1 c2 er : Element) (sys : String)
    (hww : getChild v "WhereWhen" = .ok ww)
    (hodl : getChild ww "ObsDataLocation" = .ok odl)
    (hol : getChild odl "ObservationLocation" = .ok ol)
    (hac : getChild ol "AstroCoords" = .ok ac)
    (hacs : getChild ol "AstroCoordSystem" = .ok acs)
    (hid : getAttrib acs "id" = .ok sys)
    (hp : getChild ac "Position2D" = .ok p)
    (hn1 : getChild p "Name1" = .ok n1)
    (hn1t : n1.text = "RA")
    (hn2 : getChild p "Name2" = .ok n2)
    (hn2t : n2.text = "Dec")
    (hval : getChild p "Value2" = .ok val2)
    (hc1 : getChild val2 "C1" = .ok c1)
    (hc2 : getChild val2 "C2" = .ok c2)
    (her : getChild p "Error2Radius" = .ok er) :
    pull_astro_coords v
      = (v, .ok { ra := c1.text, dec := c2.text, ra_err := er.text, dec_err := er.text,
                  units := "degrees", system := sys }) := by
  unfold pull_astro_coords pullAstroCoordsTry
  simp only [hww, hodl, hol, hac, hacs, hid, hp, hn1, hn1t, hn2, hn2t, hval, hc1, hc2, her]
  simp [CoordUnits.degrees]

/-- C2 witness: the spec's own concrete example, on a concrete GCN-style
tree. -/
theorem pull_astro_coords_gcn_success_witness :
    pull_astro_coords (gcnTree "RA" "Dec" "123.4" "-56.7" "0.01" "UTC-FK5-GEO")
      = (gcnTree "RA" "Dec" "123.4" "-56.7" "0.01" "UTC-FK5-GEO",
         .ok { ra := "123.4", dec := "-56.7", ra_err := "0.01", dec_err := "0.01",
               units := "degrees", system := "UTC-FK5-GEO" }) :=
  pull_astro_coords_gcn_success
    (gcnTree "RA" "Dec" "123.4" "-56.7" "0.01" "UTC-FK5-GEO") _ _ _ _ _ _ _ _ _ _ _ _ _
    rfl rfl rfl rfl rfl rfl rfl rfl rfl rfl rfl rfl rfl rfl rfl

/-- C3 counterexample: on the spec's own `"GLON"`/`"GLAT"` example tree,
`pull_astro_coords` raises `AssertionError` (the failed `assert` is not an
`AttributeError`, so the `except AttributeError:` clause does not convert
it), not the claimed `ValueError("Unrecognised AstroCoords type")`. -/
theorem pull_astro_coords_glon_counterexample :
    (pull_astro_coords (gcnTree "GLON" "GLAT" "123.4" "-56.7" "0.01" "UTC-FK5-GEO")).2
        = .error .assertionError
    ∧ (pull_astro_coords (gcnTree "GLON" "GLAT" "123.4" "-56.7" "0.01" "UTC-FK5-GEO")).2
        ≠ .error (.valueError "Unrecognised AstroCoords type") := by
  refine ⟨rfl, ?_⟩
  intro h
  rw [show (pull_astro_coords (gcnTree "GLON" "GLAT" "123.4" "-56.7" "0.01" "UTC-FK5-GEO")).2
        = Except.error PyErr.assertionError from rfl] at h
  simp at h

/-- C3 amended: `pull_astro_coords` raises the typed
`ValueError("Unrecognised AstroCoords type")` only for `AttributeError`
failures inside the `try:` block (`Position2D` or one of its expected
descendants absent); axis names present but not equal to `"RA"`/`"Dec"`
raise a bare `AssertionError`; an absent node on the
`WhereWhen.ObsDataLocation.ObservationLocation` navigation path (which runs
before the `try:`) raises a generic `AttributeError`; and a missing `id`
attribute on `AstroCoordSystem` raises a generic `KeyError`. -/
theorem pull_astro_coords_error_paths :
    (∀ v : Element, getChild v "WhereWhen" = .error .attributeError →
        (pull_astro_coords v).2 = .error .attributeError)
    ∧ (∀ v ww odl ol ac acs : Element,
        getChild v "WhereWhen" = .ok ww →
        getChild ww "ObsDataLocation" = .ok odl →
        getChild odl "ObservationLocation" = .ok ol →
        getChild ol "AstroCoords" = .ok ac →
        getChild ol "AstroCoordSystem" = .ok acs →
        getAttrib acs "id" = .error .keyError →
        (pull_astro_coords v).2 = .error .keyError)
    ∧ (∀ v ww odl ol ac acs : Element, ∀ sys : String,
        getChild v "WhereWhen" = .ok ww →
        getChild ww "ObsDataLocation" = .ok odl →
        getChild odl "ObservationLocation" = .ok ol →
        getChild ol "AstroCoords" = .ok ac →
        getChild ol "AstroCoordSystem" = .ok acs →
        getAttrib acs "id" = .ok sys →
        getChild ac "Position2D" = .error .attributeError →
        (pull_astro_coords v).2 = .error (.valueError "Unrecognised AstroCoords type"))
    ∧ (∀ v ww odl ol ac acs p n1 : Element, ∀ sys : String,
        getChild v "WhereWhen" = .ok ww →
        getChild ww "ObsDataLocation" = .ok odl →
        getChild odl "ObservationLocation" = .ok ol →
        getChild ol "AstroCoords" = .ok ac →
        getChild ol "AstroCoordSystem" = .ok acs →
        getAttrib acs "id" = .ok sys →
        getChild ac "Position2D" = .ok p →
        getChild p "Name1" = .ok n1 →
        n1.text ≠ "RA" →
        (pull_astro_coords v).2 = .error .assertionError)
    ∧ (∀ v ww odl ol ac acs p n1 n2 : Element, ∀ sys : String,
        getChild v "WhereWhen" = .ok ww →
        getChild ww "ObsDataLocation" = .ok odl →
        getChild odl "ObservationLocation" = .ok ol →
        getChild ol "AstroCoords" = .ok ac →
        getChild ol "AstroCoordSystem" = .ok acs →
        getAttrib acs "id" = .ok sys →
        getChild ac "Position2D" = .ok p →
        getChild p "Name1" = .ok n1 →
        n1.text = "RA" →
        getChild p "Name2" = .ok n2 →
        n2.text = "Dec" →
        getChild p "Value2" = .error .attributeError →
        (pull_astro_coords v).2 = .error (.valueError "Unrecognised AstroCoords type")) := by
  refine ⟨?_, ?_, ?_, ?_, ?_⟩
  · intro v hww
    unfold pull_astro_coords
    simp only [hww]
  · intro v ww odl ol ac acs hww hodl hol hac hacs hid
    unfold pull_astro_coords
    simp only [hww, hodl, hol, hac, hacs, hid]
  · intro v ww odl ol ac acs sys hww hodl hol hac hacs hid hp
    unfold pull_astro_coords pullAstroCoordsTry
    simp only [hww, hodl, hol, hac, hacs, hid, hp]
  · intro v ww odl ol ac acs p n1 sys hww hodl hol hac hacs hid hp hn1 hne
    unfold pull_astro_coords pullAstroCoordsTry
    simp only [hww, hodl, hol, hac, hacs, hid, hp, hn1, if_neg hne]
  · intro v ww odl ol ac acs p n1 n2 sys hww hodl hol hac hacs hid hp hn1 hn1t hn2 hn2t hval
    unfold pull_astro_coords pullAstroCoordsTry
    simp only [hww, hodl, hol, hac, hacs, hid, hp, hn1, hn1t, hn2, hn2t, hval]
    simp

/-- C3 witness: the amended error classification, applied at concrete
trees: an empty tree (missing `WhereWhen`) gives `AttributeError`; the
GLON/GLAT tree gives `AssertionError`; a tree whose `AstroCoords` has no
`Position2D` gives the typed `ValueError`. -/
theorem pull_astro_coords_error_paths_witness :
    (pull_astro_coords (Element.mk "VOEvent" [] [("voe", "ns")] "" false [])).2
        = .error .attributeError
    ∧ (pull_astro_coords (gcnTree "GLON" "GLAT" "1" "2" "3" "sys")).2
        = .error .assertionError
    ∧ (pull_astro_coords (Element.mk "VOEvent" [] [("voe", "ns")] "" false
        [Element.mk "WhereWhen" [] [] "" false
          [Element.mk "ObsDataLocation" [] [] "" false
            [Element.mk "ObservationLocation" [] [] "" false
              [Element.mk "AstroCoordSystem" [("id", "sys")] [] "" false [],
               Element.mk "AstroCoords" [] [] "" false []]]]])).2
        = .error (.valueError "Unrecognised AstroCoords type") :=
  ⟨pull_astro_coords_error_paths.1 _ rfl,
   pull_astro_coords_error_paths.2.2.2.1 _ _ _ _ _ _ _ _ "sys"
     rfl rfl rfl rfl rfl rfl rfl rfl (by decide),
   pull_astro_coords_error_paths.2.2.1 _ _ _ _ _ _ "sys"
     rfl rfl rfl rfl rfl rfl rfl⟩

/-- C10: `pull_astro_coords` never mutates its input tree — on the success
path and on every failure path the post-call tree is the input tree,
identically (root tag, attributes and all descendants) — while the other
public tree-consuming operations (`dumps`, `valid_as_v2_0`,
`assert_valid_as_v2_0`) do perform the strip/reinsert toggle and can leave
the tree changed. -/
theorem pull_astro_coords_no_mutation :
    (∀ v : Element, (pull_astro_coords v).1 = v)
    ∧ (∃ v : Element, ∃ b1 b2 b3 : Bool, (dumps v b1 b2 b3).1 ≠ v)
    ∧ (∃ f : Element → Bool, ∃ v : Element, (valid_as_v2_0 f v).1 ≠ v)
    ∧ (∃ g : Element → Option String, ∃ v : Element, (assert_valid_as_v2_0 g v).1 ≠ v) := by
  refine ⟨?_, ?_, ?_, ?_⟩
  · intro v
    unfold pull_astro_coords
    repeat' split
    all_goals rfl
  · refine ⟨Element.mk "VOEvent" [] [("voe", "ns")] "" true [], true, true, true, ?_⟩
    intro h
    have := congrArg Element.annotated h
    rw [show (dumps (Element.mk "VOEvent" [] [("voe", "ns")] "" true []) true true true).1
          = Element.mk "VOEvent" [] [("voe", "ns")] "" false [] from rfl] at this
    simp [Element.annotated] at this
  · refine ⟨fun _ => true, Element.mk "VOEvent" [] [("voe", "ns")] "" true [], ?_⟩
    intro h
    have := congrArg Element.annotated h
    rw [show (valid_as_v2_0 (fun _ => true)
            (Element.mk "VOEvent" [] [("voe", "ns")] "" true [])).1
          = Element.mk "VOEvent" [] [("voe", "ns")] "" false [] from rfl] at this
    simp [Element.annotated] at this
  · refine ⟨fun _ => none, Element.mk "VOEvent" [] [("voe", "ns")] "" true [], ?_⟩
    intro h
    have := congrArg Element.annotated h
    rw [show (assert_valid_as_v2_0 (fun _ => none)
            (Element.mk "VOEvent" [] [("voe", "ns")] "" true [])).1
          = Element.mk "VOEvent" [] [("voe", "ns")] "" false [] from rfl] at this
    simp [Element.annotated] at this

theorem remove_root_none (v : Element) (h : lookupStr v.nsmap "voe" = none) :
    _remove_root_tag_prefix v = (v, .error .keyError) := by
  unfold _remove_root_tag_prefix
  rw [h]

theorem remove_root_some (v : Element) (uri : String)
    (h : lookupStr v.nsmap "voe" = some uri) :
    _remove_root_tag_prefix v
      = (v.withTag (pyReplace v.tag ("\x7b" ++ uri ++ "\x7d") ""), .ok ()) := by
  unfold _remove_root_tag_prefix
  rw [h]

/-- On a correctly prefixed `VOEvent` root, the strip yields the bare tag. -/
theorem remove_root_prefixed (v : Element) (uri : String)
    (hns : lookupStr v.nsmap "voe" = some uri)
    (htag : v.tag = "\x7b" ++ uri ++ "\x7dVOEvent") :
    _remove_root_tag_prefix v = (v.withTag "VOEvent", .ok ()) := by
  rw [remove_root_some v uri hns, htag, pyReplace_strip_voevent]

theorem reinsert_root_some (v : Element) (uri : String)
    (h : lookupStr v.nsmap "voe" = some uri) :
    _reinsert_root_tag_prefix v = (v.withTag ("\x7b" ++ uri ++ "\x7dVOEvent"), .ok ()) := by
  unfold _reinsert_root_tag_prefix
  rw [h]

theorem return_std_some (v : Element) (uri : String)
    (h : lookupStr v.nsmap "voe" = some uri) :
    _return_to_standard_xml v
      = ((deannotate v).withTag ("\x7b" ++ uri ++ "\x7dVOEvent"), .ok ()) := by
  unfold _return_to_standard_xml
  rw [reinsert_root_some (deannotate v) uri (by simpa [deannotate] using h)]

/-- `assert_valid_as_v2_0` on an invalid document: raises `DocumentInvalid`
with the validator's reason and leaves the tree in prefixed form. -/
theorem assert_valid_invalid_char (g : Element → Option String) (v : Element)
    (uri reason : String) (hns : lookupStr v.nsmap "voe" = some uri)
    (hg : g ((deannotate v).withTag ("\x7b" ++ uri ++ "\x7dVOEvent")) = some reason) :
    assert_valid_as_v2_0 g v
      = ((deannotate v).withTag ("\x7b" ++ uri ++ "\x7dVOEvent"),
         .error (.documentInvalid reason)) := by
  unfold assert_valid_as_v2_0
  rw [return_std_some v uri hns]
  simp only [hg]

/-- `assert_valid_as_v2_0` on a valid document: strips the root tag back
before returning. -/
theorem assert_valid_valid_char (g : Element → Option String) (v : Element)
    (uri : String) (hns : lookupStr v.nsmap "voe" = some uri)
    (hg : g ((deannotate v).withTag ("\x7b" ++ uri ++ "\x7dVOEvent")) = none) :
    assert_valid_as_v2_0 g v = ((deannotate v).withTag "VOEvent", .ok ()) := by
  unfold assert_valid_as_v2_0
  rw [return_std_some v uri hns]
  simp only [hg]
  rw [remove_root_prefixed _ uri (by simpa [deannotate] using hns) (by simp)]
  simp

/-- C4: whenever `make_voevent(ivorn, role)` returns a tree, that tree's
root `ivorn` attribute is exactly `"ivo://" ++ ivorn` and its `role`
attribute is the caller's role verbatim — for every ivorn and role string,
every skeleton and every schema outcome. -/
theorem make_voevent_sets_ivorn_and_role
    (skeleton : XmlBytes) (g : Element → Option String) (ivorn role : String)
    (validate : Bool) (t : Element)
    (h : make_voevent skeleton g ivorn role validate = .ok t) :
    lookupStr t.attrib "ivorn" = some ("ivo://" ++ ivorn)
    ∧ lookupStr t.attrib "role" = some role := by
  have hri : ("ivorn" : String) ≠ "role" := by decide
  unfold make_voevent at h
  cases hns : lookupStr (fromstring skeleton).nsmap "voe" with
  | none =>
    rw [remove_root_none (fromstring skeleton) hns] at h
    simp at h
  | some uri =>
    rw [remove_root_some (fromstring skeleton) uri hns] at h
    simp only [] at h
    set v1 := (fromstring skeleton).withTag
        (pyReplace (fromstring skeleton).tag ("\x7b" ++ uri ++ "\x7d") "") with hv1
    set v3 := setAttrib (setAttrib v1 "ivorn" ("ivo://" ++ ivorn)) "role" role with hv3
    have hns3 : lookupStr v3.nsmap "voe" = some uri := by
      rw [hv3]
      simpa [hv1] using hns
    cases validate with
    | false =>
      rw [if_neg Bool.false_ne_true] at h
      have ht : t = v3 := by
        injection h with h2
        exact h2.symm
      subst ht
      constructor
      · rw [hv3]
        simp only [attrib_setAttrib]
        rw [lookupStr_setKey_ne _ _ _ _ hri]
        simp
      · rw [hv3]
        simp
    | true =>
      simp only [if_pos rfl] at h
      cases hg : g ((deannotate v3).withTag ("\x7b" ++ uri ++ "\x7dVOEvent")) with
      | some reason =>
        rw [assert_valid_invalid_char g v3 uri reason hns3 hg] at h
        simp at h
      | none =>
        rw [assert_valid_valid_char g v3 uri hns3 hg] at h
        have ht : t = (deannotate v3).withTag "VOEvent" := by
          cases h
          rfl
        subst ht
        constructor
        · simp only [Element.attrib_withTag, Element.attrib_withAnnotated, deannotate]
          rw [hv3]
          simp only [attrib_setAttrib]
          rw [lookupStr_setKey_ne _ _ _ _ hri]
          simp
        · simp only [Element.attrib_withTag, Element.attrib_withAnnotated, deannotate]
          rw [hv3]
          simp

/-- C4 witness: the spec's concrete example ivorn, on a concrete skeleton
with an always-valid schema outcome. -/
theorem make_voevent_sets_ivorn_and_role_witness :
    lookupStr (Element.mk "VOEvent"
        [("ivorn", "ivo://survey.example.org/ALERT#1"), ("role", "observation")]
        [("voe", "ns")] "" false []).attrib "ivorn"
      = some ("ivo://" ++ "survey.example.org/ALERT#1")
    ∧ lookupStr (Element.mk "VOEvent"
        [("ivorn", "ivo://survey.example.org/ALERT#1"), ("role", "observation")]
        [("voe", "ns")] "" false []).attrib "role"
      = some "observation" :=
  make_voevent_sets_ivorn_and_role
    (Element.mk "{ns}VOEvent" [] [("voe", "ns")] "" false [])
    (fun _ => none) "survey.example.org/ALERT#1" "observation" true
    (Element.mk "VOEvent"
      [("ivorn", "ivo://survey.example.org/ALERT#1"), ("role", "observation")]
      [("voe", "ns")] "" false [])
    rfl

/-- C5: `assert_valid_as_v2_0` raises `DocumentInvalid` carrying the
validator's diagnostic reason exactly when the (prefixed, deannotated)
document fails the schema, and on that failure path the tree is left in
prefixed form (`{uri}VOEvent`) because the strip step is skipped; on the
success path the root tag is stripped back to `VOEvent` before
returning. -/
theorem assert_valid_as_v2_0_paths (g : Element → Option String) (v : Element)
    (uri : String) (hns : lookupStr v.nsmap "voe" = some uri) :
    (∀ reason, g ((deannotate v).withTag ("\x7b" ++ uri ++ "\x7dVOEvent")) = some reason →
        assert_valid_as_v2_0 g v
          = ((deannotate v).withTag ("\x7b" ++ uri ++ "\x7dVOEvent"),
             .error (.documentInvalid reason)))
    ∧ (g ((deannotate v).withTag ("\x7b" ++ uri ++ "\x7dVOEvent")) = none →
        assert_valid_as_v2_0 g v = ((deannotate v).withTag "VOEvent", .ok ())) :=
  ⟨fun reason hg => assert_valid_invalid_char g v uri reason hns hg,
   fun hg => assert_valid_valid_char g v uri hns hg⟩

/-- C5 witness: both validation outcomes on a concrete stripped tree. -/
theorem assert_valid_as_v2_0_paths_witness :
    assert_valid_as_v2_0 (fun _ => some "missing Who")
        (Element.mk "VOEvent" [] [("voe", "ns")] "" false [])
      = (Element.mk "{ns}VOEvent" [] [("voe", "ns")] "" false [],
         .error (.documentInvalid "missing Who"))
    ∧ assert_valid_as_v2_0 (fun _ => none)
        (Element.mk "VOEvent" [] [("voe", "ns")] "" false [])
      = (Element.mk "VOEvent" [] [("voe", "ns")] "" false [], .ok ()) :=
  ⟨(assert_valid_as_v2_0_paths (fun _ => some "missing Who")
      (Element.mk "VOEvent" [] [("voe", "ns")] "" false []) "ns" rfl).1
     "missing Who" rfl,
   (assert_valid_as_v2_0_paths (fun _ => none)
      (Element.mk "VOEvent" [] [("voe", "ns")] "" false []) "ns" rfl).2 rfl⟩

/-- C6: on a VOEvent document (root prefixed with the `voe` URI), `loads`
hands back the tree in stripped form; and on a stripped-form tree, `dumps`
and `valid_as_v2_0` (whatever the validation outcome) internally move to
prefixed form but hand the tree back in stripped form, equal to its pre-call
state modulo the annotation cleanup performed by `deannotate`. -/
theorem stripped_form_invariant :
    (∀ (d : XmlBytes) (val : Bool) (uri : String),
        lookupStr (fromstring d).nsmap "voe" = some uri →
        (fromstring d).tag = "\x7b" ++ uri ++ "\x7dVOEvent" →
        loads d val = .ok ((fromstring d).withTag "VOEvent"))
    ∧ (∀ (v : Element) (uri : String) (val pp xd : Bool),
        lookupStr v.nsmap "voe" = some uri → v.tag = "VOEvent" →
        (dumps v val pp xd).1 = deannotate v)
    ∧ (∀ (f : Element → Bool) (v : Element) (uri : String),
        lookupStr v.nsmap "voe" = some uri → v.tag = "VOEvent" →
        valid_as_v2_0 f v
          = (deannotate v,
             .ok (f ((deannotate v).withTag ("\x7b" ++ uri ++ "\x7dVOEvent"))))) := by
  refine ⟨?_, ?_, ?_⟩
  · intro d val uri hns htag
    unfold loads
    rw [remove_root_prefixed _ uri hns htag]
  · intro v uri val pp xd hns htag
    unfold dumps
    simp only [return_std_some v uri hns]
    simp only [remove_root_prefixed ((deannotate v).withTag ("\x7b" ++ uri ++ "\x7dVOEvent")) uri
          (by simpa [deannotate] using hns) (by simp)]
    have htd : (deannotate v).tag = "VOEvent" := by simp [deannotate, htag]
    simp only [Element.withTag_withTag]
    rw [← htd, Element.withTag_tag]
  · intro f v uri hns htag
    unfold valid_as_v2_0
    simp only [return_std_some v uri hns]
    simp only [remove_root_prefixed ((deannotate v).withTag ("\x7b" ++ uri ++ "\x7dVOEvent")) uri
          (by simpa [deannotate] using hns) (by simp)]
    have htd : (deannotate v).tag = "VOEvent" := by simp [deannotate, htag]
    simp only [Element.withTag_withTag]
    rw [← htd, Element.withTag_tag]

/-- C6 witness: the three conjuncts at concrete trees, with the boolean
validator instantiated at both outcomes. -/
theorem stripped_form_invariant_witness :
    loads (Element.mk "{ns}VOEvent" [("role", "test")] [("voe", "ns")] "" false []) false
      = .ok (Element.mk "VOEvent" [("role", "test")] [("voe", "ns")] "" false [])
    ∧ (dumps (Element.mk "VOEvent" [] [("voe", "ns")] "" true []) false true true).1
      = Element.mk "VOEvent" [] [("voe", "ns")] "" false []
    ∧ valid_as_v2_0 (fun _ => false) (Element.mk "VOEvent" [] [("voe", "ns")] "" false [])
      = (Element.mk "VOEvent" [] [("voe", "ns")] "" false [], .ok false)
    ∧ valid_as_v2_0 (fun _ => true) (Element.mk "VOEvent" [] [("voe", "ns")] "" false [])
      = (Element.mk "VOEvent" [] [("voe", "ns")] "" false [], .ok true) :=
  ⟨stripped_form_invariant.1
     (Element.mk "{ns}VOEvent" [("role", "test")] [("voe", "ns")] "" false []) false "ns"
     rfl rfl,
   stripped_form_invariant.2.1
     (Element.mk "VOEvent" [] [("voe", "ns")] "" true []) "ns" false true true rfl rfl,
   stripped_form_invariant.2.2
     (fun _ => false) (Element.mk "VOEvent" [] [("voe", "ns")] "" false []) "ns" rfl rfl,
   stripped_form_invariant.2.2
     (fun _ => true) (Element.mk "VOEvent" [] [("voe", "ns")] "" false []) "ns" rfl rfl⟩

/-- C7: on a correctly prefixed VOEvent tree (root tag `{uri}VOEvent` with
the `voe` prefix bound to `uri`), strip followed by reinsert followed by
strip yields the same root tag as a single strip: the toggle is a stable
round trip. -/
theorem strip_reinsert_strip_stable (v : Element) (uri : String)
    (hns : lookupStr v.nsmap "voe" = some uri)
    (htag : v.tag = "\x7b" ++ uri ++ "\x7dVOEvent") :
    (( _remove_root_tag_prefix (( _reinsert_root_tag_prefix
        (( _remove_root_tag_prefix v).1)).1)).1).tag
      = (( _remove_root_tag_prefix v).1).tag := by
  simp only [remove_root_prefixed v uri hns htag]
  simp only [reinsert_root_some (v.withTag "VOEvent") uri (by simpa using hns)]
  simp only [Element.withTag_withTag]
  simp only [remove_root_prefixed (v.withTag ("\x7b" ++ uri ++ "\x7dVOEvent")) uri
      (by simpa using hns) (by simp)]
  simp

/-- C7 witness: the toggle round trip on a concrete prefixed tree. -/
theorem strip_reinsert_strip_stable_witness :
    (( _remove_root_tag_prefix (( _reinsert_root_tag_prefix
        (( _remove_root_tag_prefix
          (Element.mk "{ns}VOEvent" [] [("voe", "ns")] "" false [])).1)).1)).1).tag
      = (( _remove_root_tag_prefix
          (Element.mk "{ns}VOEvent" [] [("voe", "ns")] "" false [])).1).tag :=
  strip_reinsert_strip_stable
    (Element.mk "{ns}VOEvent" [] [("voe", "ns")] "" false []) "ns" rfl rfl

/-- C8 counterexample: there is no `MalformedDocument` error anywhere in the
code.  On a tree with no `voe` namespace mapping the strip raises the
generic Python `KeyError`; on a tree whose root tag is not in prefixed form
(but with `voe` bound) the strip does not fail at all — the unconditional
string replace silently leaves the tag unchanged and returns success. -/
theorem remove_root_no_malformed_counterexample :
    _remove_root_tag_prefix (Element.mk "{http://other}Foo" [] [] "" false [])
        = (Element.mk "{http://other}Foo" [] [] "" false [], .error .keyError)
    ∧ _remove_root_tag_prefix (Element.mk "VOEvent" [] [("voe", "ns")] "" false [])
        = (Element.mk "VOEvent" [] [("voe", "ns")] "" false [], .ok ()) :=
  ⟨rfl, rfl⟩

/-- C8 amended: when the tree has no namespace mapping for `voe`, strip
fails with the generic `KeyError` (not a typed `MalformedDocument`, which
does not exist in the code); when the root tag is not in prefixed form
(contains no `'{'`), strip silently succeeds and leaves the tag — and the
whole tree — unchanged. -/
theorem remove_root_error_behaviour (v : Element) :
    (lookupStr v.nsmap "voe" = none →
        _remove_root_tag_prefix v = (v, .error .keyError))
    ∧ (∀ uri, lookupStr v.nsmap "voe" = some uri → '{' ∉ v.tag.data →
        _remove_root_tag_prefix v = (v, .ok ())) := by
  constructor
  · exact fun h => remove_root_none v h
  · intro uri hns hbrace
    rw [remove_root_some v uri hns, pyReplace_no_brace v.tag uri hbrace,
        Element.withTag_tag]

/-- C8 witness: the amended behaviour at concrete trees. -/
theorem remove_root_error_behaviour_witness :
    _remove_root_tag_prefix (Element.mk "Foo" [("a", "b")] [] "" false [])
        = (Element.mk "Foo" [("a", "b")] [] "" false [], .error .keyError)
    ∧ _remove_root_tag_prefix (Element.mk "Who" [] [("voe", "u")] "" true [])
        = (Element.mk "Who" [] [("voe", "u")] "" true [], .ok ()) :=
  ⟨(remove_root_error_behaviour (Element.mk "Foo" [("a", "b")] [] "" false [])).1 rfl,
   (remove_root_error_behaviour (Element.mk "Who" [] [("voe", "u")] "" true [])).2
     "u" rfl (by decide)⟩

/-- C9: whenever the `voe` prefix is bound to `uri`, reinsert sets the root
tag to exactly `{uri}VOEvent` regardless of the root's current local name —
the local name `VOEvent` is hardcoded — so the bytes `dumps` serializes for
a loaded document whose root local name differs carry a root renamed to
`VOEvent`. -/
theorem reinsert_hardcodes_voevent (v : Element) (uri : String)
    (hns : lookupStr v.nsmap "voe" = some uri) :
    (( _reinsert_root_tag_prefix v).1).tag = "\x7b" ++ uri ++ "\x7dVOEvent"
    ∧ (∀ val pp xd : Bool,
        (dumps v val pp xd).2
          = .ok ((deannotate v).withTag ("\x7b" ++ uri ++ "\x7dVOEvent"))) := by
  constructor
  · simp only [reinsert_root_some v uri hns]
    simp
  · intro val pp xd
    unfold dumps
    simp only [return_std_some v uri hns]
    simp only [remove_root_prefixed ((deannotate v).withTag ("\x7b" ++ uri ++ "\x7dVOEvent")) uri
        (by simpa [deannotate] using hns) (by simp)]
    simp [tostring]

/-- C9 witness: a tree whose root local name is not `VOEvent` gets renamed
by reinsert, and its serialized form carries the renamed root. -/
theorem reinsert_hardcodes_voevent_witness :
    (( _reinsert_root_tag_prefix
        (Element.mk "Observation" [] [("voe", "ns")] "" false [])).1).tag
      = "\x7b" ++ "ns" ++ "\x7dVOEvent"
    ∧ (dumps (Element.mk "Observation" [] [("voe", "ns")] "" false []) false true true).2
      = .ok (Element.mk "{ns}VOEvent" [] [("voe", "ns")] "" false []) :=
  ⟨(reinsert_hardcodes_voevent
      (Element.mk "Observation" [] [("voe", "ns")] "" false []) "ns" rfl).1,
   (reinsert_hardcodes_voevent
      (Element.mk "Observation" [] [("voe", "ns")] "" false []) "ns" rfl).2
     false true true⟩

/-- C1: round-trip — for a well-formed VOEvent document `d` (root tag
prefixed with the `voe`-bound URI, carrying no objectify annotations, as a
schema-conformant document cannot), `loads` succeeds and `dumps` of the
loaded tree yields bytes semantically equal to `d`; being semantically equal
to the schema-conformant `d`, the output is schema-valid, and the stated
equality ignores exactly the pretty-print/declaration formatting the byte
model quotients out. -/
theorem dumps_loads_roundtrip (d : XmlBytes) (uri : String) (val val2 pp xd : Bool)
    (hns : lookupStr (fromstring d).nsmap "voe" = some uri)
    (htag : (fromstring d).tag = "\x7b" ++ uri ++ "\x7dVOEvent")
    (hann : (fromstring d).annotated = false) :
    ∃ t, loads d val = .ok t ∧ (dumps t val2 pp xd).2 = .ok d := by
  refine ⟨(fromstring d).withTag "VOEvent", ?_, ?_⟩
  · unfold loads
    rw [remove_root_prefixed _ uri hns htag]
  · unfold dumps
    have hnst : lookupStr ((fromstring d).withTag "VOEvent").nsmap "voe" = some uri := by
      simpa using hns
    simp only [return_std_some ((fromstring d).withTag "VOEvent") uri hnst]
    simp only [remove_root_prefixed
        ((deannotate ((fromstring d).withTag "VOEvent")).withTag ("\x7b" ++ uri ++ "\x7dVOEvent"))
        uri (by simpa [deannotate] using hnst) (by simp)]
    have hda : deannotate ((fromstring d).withTag "VOEvent")
        = (fromstring d).withTag "VOEvent" := by
      have h5 : ((fromstring d).withTag "VOEvent").annotated = false := by
        simpa using hann
      rw [deannotate, ← h5, Element.withAnnotated_annotated]
    simp only [tostring, hda, Element.withTag_withTag]
    rw [← htag, Element.withTag_tag]
    rfl

/-- C1 witness: the round trip on a concrete prefixed VOEvent document. -/
theorem dumps_loads_roundtrip_witness :
    ∃ t, loads (Element.mk "{ns}VOEvent" [("role", "test")] [("voe", "ns")] ""
          false [Element.mk "Who" [] [] "someone" false []]) false = .ok t
      ∧ (dumps t true true true).2
          = .ok (Element.mk "{ns}VOEvent" [("role", "test")] [("voe", "ns")] ""
              false [Element.mk "Who" [] [] "someone" false []]) :=
  dumps_loads_roundtrip
    (Element.mk "{ns}VOEvent" [("role", "test")] [("voe", "ns")] ""
      false [Element.mk "Who" [] [] "someone" false []])
    "ns" false true true true rfl rfl rfl
